import Mathlib

/-!
The preset table of arduino-life (`presets.h`)

`presets.h` declares one mutable global, `int active_preset = 0;`, the constant
`N_PRESETS`, and the constant table `presets[N_PRESETS]` of three starting
configurations for the Game-of-Life display.  This development embeds those
declarations and the four accessors that the specification names over them
(`get`, `active`, `setActive`, `count`) and proves the specification's
statements about them.
-/

namespace ArduinoLife

/-! ## Data model -/

/-- Modelled from the spec: the declaration of the boundary tags is not in
`presets.h`, which only uses the names `B_DEAD` and `B_WRAPPED`.  The tags are
kept symbolic, one constructor per name. -/
inductive BoundaryMode where
  | B_DEAD
  | B_WRAPPED
  deriving DecidableEq, Repr

/-- Modelled from the spec: the declaration of the seed tags is not in
`presets.h`, which only uses the names `S_PRESET` and `S_RANDOM`.  The tags are
kept symbolic, one constructor per name. -/
inductive SeedMode where
  | S_PRESET
  | S_RANDOM
  deriving DecidableEq, Repr

/-- Modelled from the spec: the declaration of the record type `preset` is not
in `presets.h`; every initializer of the table gives, in this order, a boundary
tag, a seed tag and a brace-enclosed list of rows of integer literals.  The
grid is kept as the rows exactly as the initializer writes them, so that its
dimensions are something to prove and not something the type grants. -/
structure preset where
  boundary : BoundaryMode
  seed : SeedMode
  grid : List (List Nat)
  deriving DecidableEq, Repr

/-- The table size, `#define N_PRESETS 3`. -/
def N_PRESETS : Nat := 3

/-- The initializer of `const preset presets[N_PRESETS]`, record by record and
literal by literal, in source order: the flower, the glider, the random one. -/
def presets : List preset :=
  [ { boundary := BoundaryMode.B_DEAD
      seed := SeedMode.S_PRESET
      grid :=
        [ [0, 0, 0, 0, 0, 0, 0],
          [0, 0, 0, 1, 0, 0, 0],
          [0, 1, 1, 1, 0, 0, 0],
          [0, 0, 0, 1, 0, 0, 0],
          [0, 0, 0, 0, 0, 0, 0] ] },
    { boundary := BoundaryMode.B_WRAPPED
      seed := SeedMode.S_PRESET
      grid :=
        [ [0, 0, 0, 0, 0, 0, 0],
          [0, 0, 1, 0, 0, 0, 0],
          [0, 0, 0, 1, 0, 0, 0],
          [0, 1, 1, 1, 0, 0, 0],
          [0, 0, 0, 0, 0, 0, 0] ] },
    { boundary := BoundaryMode.B_DEAD
      seed := SeedMode.S_RANDOM
      grid :=
        [ [0, 0, 0, 0, 0, 0, 0],
          [0, 0, 0, 0, 0, 0, 0],
          [0, 0, 0, 0, 0, 0, 0],
          [0, 0, 0, 0, 0, 0, 0],
          [0, 0, 0, 0, 0, 0, 0] ] } ]

/-- The mutable part of the program: the global `int active_preset`. -/
structure State where
  active_preset : Int
  deriving DecidableEq, Repr

/-- The state after the initializer `int active_preset = 0;` has run. -/
def initState : State := { active_preset := 0 }

/-! ## Accessors -/

/-- Modelled from the spec: `presets.h` has no accessor function; `get(index)`
is the array subscript `presets[index]` on a signed `int` index.  A subscript
that names no element of the table has no value here (`none`). -/
def get (index : Int) : Option preset :=
  if index < 0 then none else presets[index.toNat]?

/-- Modelled from the spec: `active()` is the read `presets[active_preset]`. -/
def active (s : State) : Option preset :=
  get s.active_preset

/-- Modelled from the spec: `setActive(index)` is the assignment
`active_preset = index;`, with no check of the index. -/
def setActive (s : State) (index : Int) : State :=
  { s with active_preset := index }

/-- Modelled from the spec: `count()` is the constant `N_PRESETS`. -/
def count : Nat := N_PRESETS

/-! ## Reading grids -/

/-- The cell `grid[r][c]`, when row `r` and column `c` both exist. -/
def cell (g : List (List Nat)) (r c : Nat) : Option Nat :=
  match g[r]? with
  | none => none
  | some row => row[c]?

/-- The columns of one row that hold a `1`, left to right. -/
def liveColumns (row : List Nat) : List Nat :=
  (row.enum.filter fun cv => cv.2 = 1).map Prod.fst

/-- The coordinates `(row, column)` of the cells that hold a `1`, in row-major
order. -/
def liveCells (g : List (List Nat)) : List (Nat × Nat) :=
  g.enum.flatMap fun rrow => (liveColumns rrow.2).map fun c => (rrow.1, c)

/-- The live cells of a list are three cells on one diagonal: in row-major
order they sit on consecutive rows and on consecutive columns, running down to
the right or down to the left. -/
def diagonalTriple (l : List (Nat × Nat)) : Prop :=
  ∃ r c, l = [(r, c), (r + 1, c + 1), (r + 2, c + 2)] ∨
    l = [(r, c + 2), (r + 1, c + 1), (r + 2, c)]

/-- The range of valid selections, `0 ≤ active_preset < N_PRESETS`. -/
def inRange (s : State) : Prop :=
  0 ≤ s.active_preset ∧ s.active_preset < (N_PRESETS : Int)

/-- The states the program can be in when every selection it has made was a
valid one: the initial state, and any `setActive s i` with `0 ≤ i < N_PRESETS`
from such a state. -/
inductive Reachable : State → Prop where
  | start : Reachable initState
  | select (s : State) (i : Int) :
      Reachable s → 0 ≤ i → i < (N_PRESETS : Int) → Reachable (setActive s i)

/-! ## Operations as effects on memory -/

/-- The memory the four operations can see: the selection state and the
storage of the table `presets`. -/
structure Memory where
  sel : State
  table : List preset
  deriving DecidableEq, Repr

/-- The memory at program start: `active_preset` holds 0 and the table holds
its initializer. -/
def initMemory : Memory := { sel := initState, table := presets }

/-- Modelled from the spec: the four operations the specification names over
the declarations of `presets.h`, as calls with their arguments. -/
inductive Op where
  | get (index : Int)
  | active
  | setActive (index : Int)
  | count
  deriving DecidableEq, Repr

/-- The subscript `presets[index]` read from a memory. -/
def readAt (m : Memory) (index : Int) : Option preset :=
  if index < 0 then none else m.table[index.toNat]?

/-- Modelled from the spec: the effect of one operation on memory.  `get`,
`active` and `count` are reads; `setActive` is the assignment to
`active_preset`; the table is `const` and nothing writes to it. -/
def step (m : Memory) : Op → Memory
  | Op.get _ => m
  | Op.active => m
  | Op.setActive index => { m with sel := setActive m.sel index }
  | Op.count => m

/-- The effect of a sequence of operations, first to last. -/
def run (m : Memory) (ops : List Op) : Memory :=
  ops.foldl step m

/-! ## Wrap-around selection -/

/-- The C expression `a % b` on signed integers: the remainder of the division
that truncates toward zero, so its sign follows `a`. -/
def cRem (a b : Int) : Int :=
  Int.tmod a b

/-- Modelled from the spec: the wrap-around selection, which is not in
`presets.h`: `active_preset = index % N_PRESETS;`. -/
def wrapSelect (s : State) (index : Int) : State :=
  setActive s (cRem index (N_PRESETS : Int))

/-! ## Lemmas on the lookup -/

theorem get_zero : get 0 = presets[0]? := by
  simp [get]

theorem get_one : get 1 = presets[1]? := by
  simp [get]

theorem get_two : get 2 = presets[2]? := by
  simp [get]

theorem presets_length : presets.length = 3 := by
  rfl

theorem get_neg (i : Int) (h : i < 0) : get i = none := by
  simp [get, h]

theorem get_ge (i : Int) (h : (N_PRESETS : Int) ≤ i) : get i = none := by
  have h3 : (3 : Int) ≤ i := by simpa [N_PRESETS] using h
  have hn : ¬ i < 0 := by omega
  have hlen : presets.length ≤ i.toNat := by
    rw [presets_length]
    omega
  simp [get, hn, List.getElem?_eq_none hlen]

theorem get_some_range (i : Int) (p : preset) (h : get i = some p) :
    0 ≤ i ∧ i < (N_PRESETS : Int) := by
  by_contra hc
  rcases Int.lt_or_le i 0 with hneg | hpos
  · rw [get_neg i hneg] at h
    cases h
  · have hge : (N_PRESETS : Int) ≤ i := by omega
    rw [get_ge i hge] at h
    cases h

theorem range_cases (i : Int) (h0 : 0 ≤ i) (h1 : i < (N_PRESETS : Int)) :
    i = 0 ∨ i = 1 ∨ i = 2 := by
  have h3 : i < 3 := by simpa [N_PRESETS] using h1
  omega

theorem get_in_range_mem (i : Int) (h0 : 0 ≤ i) (h1 : i < (N_PRESETS : Int)) :
    ∃ p, get i = some p ∧ p ∈ presets := by
  rcases range_cases i h0 h1 with rfl | rfl | rfl
  · exact ⟨_, get_zero, by decide⟩
  · exact ⟨_, get_one, by decide⟩
  · exact ⟨_, get_two, by decide⟩

/-! ## The claims -/

/-- C1: for every index `i` with `0 ≤ i < N_PRESETS`, `get i` is a record of
the table whose grid has exactly 5 rows, each of exactly 7 cells, every cell
being `0` or `1`. -/
theorem get_grid_well_formed (i : Int) (h0 : 0 ≤ i) (h1 : i < (N_PRESETS : Int)) :
    ∃ p, get i = some p ∧ p.grid.length = 5 ∧
      ∀ row ∈ p.grid, row.length = 7 ∧ ∀ v ∈ row, v = 0 ∨ v = 1 := by
  rcases range_cases i h0 h1 with rfl | rfl | rfl
  · exact ⟨_, get_zero, by decide⟩
  · exact ⟨_, get_one, by decide⟩
  · exact ⟨_, get_two, by decide⟩

theorem get_grid_well_formed_witness :
    ∃ p, get 1 = some p ∧ p.grid.length = 5 ∧
      ∀ row ∈ p.grid, row.length = 7 ∧ ∀ v ∈ row, v = 0 ∨ v = 1 :=
  get_grid_well_formed 1 (by decide) (by decide)

/-- C2: `count` equals the number of records the initializer of `presets`
lists: `N_PRESETS` is 3 and the initializer has exactly 3 records, so every
slot of the array is written by the initializer and no record is dropped. -/
theorem count_eq_declared_records :
    count = presets.length ∧ N_PRESETS = 3 ∧ presets.length = 3 ∧
      (∀ k, k < N_PRESETS → ∃ p, presets[k]? = some p) ∧
      presets[N_PRESETS]? = none := by
  refine ⟨rfl, rfl, rfl, ?_, rfl⟩
  intro k hk
  have hk3 : k < 3 := hk
  interval_cases k
  · exact ⟨_, rfl⟩
  · exact ⟨_, rfl⟩
  · exact ⟨_, rfl⟩

/-- C3: in the initial state `active_preset` is 0 and `active` returns the
record `get 0`, which is the first record of the table: boundary `B_DEAD`,
seed `S_PRESET` and the flower grid. -/
theorem initial_active_is_first_record :
    initState.active_preset = 0 ∧ active initState = get 0 ∧
      get 0 = presets.head? ∧
      get 0 = some
        { boundary := BoundaryMode.B_DEAD
          seed := SeedMode.S_PRESET
          grid :=
            [ [0, 0, 0, 0, 0, 0, 0],
              [0, 0, 0, 1, 0, 0, 0],
              [0, 1, 1, 1, 0, 0, 0],
              [0, 0, 0, 1, 0, 0, 0],
              [0, 0, 0, 0, 0, 0, 0] ] } := by
  refine ⟨rfl, rfl, ?_, ?_⟩
  · rw [get_zero]
    rfl
  · rw [get_zero]
    rfl

/-- C4: for every valid index `i` and every prior state `s`, `setActive s i`
followed by `active` returns the record that `get i` returns, and that is a
record of the table. -/
theorem active_after_setActive (s : State) (i : Int)
    (h0 : 0 ≤ i) (h1 : i < (N_PRESETS : Int)) :
    ∃ p, get i = some p ∧ active (setActive s i) = some p ∧ p ∈ presets := by
  rcases range_cases i h0 h1 with rfl | rfl | rfl
  · exact ⟨_, get_zero, get_zero, by decide⟩
  · exact ⟨_, get_one, get_one, by decide⟩
  · exact ⟨_, get_two, get_two, by decide⟩

theorem active_after_setActive_witness :
    ∃ p, get 2 = some p ∧
      active (setActive { active_preset := 1 } 2) = some p ∧ p ∈ presets :=
  active_after_setActive { active_preset := 1 } 2 (by decide) (by decide)

/-- C5: the records carry the tags (DEAD, PRESET), (WRAPPED, PRESET),
(DEAD, RANDOM) at indices 0, 1, 2; so from any state `setActive 1` makes the
active boundary WRAPPED and `setActive 2` makes the active seed RANDOM. -/
theorem preset_mode_tags (s : State) :
    (get 0).map (fun p => (p.boundary, p.seed))
        = some (BoundaryMode.B_DEAD, SeedMode.S_PRESET) ∧
      (get 1).map (fun p => (p.boundary, p.seed))
        = some (BoundaryMode.B_WRAPPED, SeedMode.S_PRESET) ∧
      (get 2).map (fun p => (p.boundary, p.seed))
        = some (BoundaryMode.B_DEAD, SeedMode.S_RANDOM) ∧
      (active (setActive s 1)).map (fun p => p.boundary)
        = some BoundaryMode.B_WRAPPED ∧
      (active (setActive s 2)).map (fun p => p.seed)
        = some SeedMode.S_RANDOM := by
  refine ⟨?_, ?_, ?_, ?_, ?_⟩
  · rw [get_zero]
    rfl
  · rw [get_one]
    rfl
  · rw [get_two]
    rfl
  · show (get 1).map (fun p => p.boundary) = _
    rw [get_one]
    rfl
  · show (get 2).map (fun p => p.seed) = _
    rw [get_two]
    rfl

/-- C6 (counterexample): the flower grid is not the centre cross.  The cell
(2,4), right of the centre, is dead and the cell (2,1) is alive, so "alive
exactly on (2,3), (1,3), (3,3), (2,2), (2,4)" fails. -/
theorem flower_not_centre_cross :
    ∃ p, get 0 = some p ∧ cell p.grid 2 4 = some 0 ∧ cell p.grid 2 1 = some 1 ∧
      ¬ (∀ r c, r < 5 → c < 7 →
          (cell p.grid r c = some 1 ↔
            (r, c) ∈ [(2, 3), (1, 3), (3, 3), (2, 2), (2, 4)])) := by
  refine ⟨_, get_zero, rfl, rfl, ?_⟩
  intro h
  have h24 := (h 2 4 (by decide) (by decide)).2 (by decide)
  revert h24
  decide

/-- C6 (amended): in the flower grid, with rows 0..4 and columns 0..6, the
centre cell (2,3), its vertical neighbours (1,3) and (3,3) and the two cells to
its left, (2,2) and (2,1), hold 1 and every other cell holds 0. -/
theorem flower_live_cells (r c : Nat) (hr : r < 5) (hc : c < 7) :
    ∃ p, get 0 = some p ∧
      cell p.grid r c =
        some (if (r, c) ∈ [(2, 3), (1, 3), (3, 3), (2, 2), (2, 1)] then 1 else 0) := by
  refine ⟨_, get_zero, ?_⟩
  interval_cases r <;> interval_cases c <;> rfl

theorem flower_live_cells_witness :
    ∃ p, get 0 = some p ∧
      cell p.grid 2 1 =
        some (if (2, 1) ∈ [(2, 3), (1, 3), (3, 3), (2, 2), (2, 1)] then 1 else 0) :=
  flower_live_cells 2 1 (by decide) (by decide)

/-- C7 (counterexample): the glider grid is not a diagonal 3-cell pattern: it
has five live cells, not three, and its live cells are not three cells on one
diagonal. -/
theorem glider_not_diagonal_triple :
    ∃ p, get 1 = some p ∧ (liveCells p.grid).length = 5 ∧
      ¬ diagonalTriple (liveCells p.grid) ∧
      ¬ ((liveCells p.grid).length = 3 ∧ diagonalTriple (liveCells p.grid)) := by
  refine ⟨_, get_one, rfl, ?_, ?_⟩
  · rintro ⟨r, c, h | h⟩
    · have hlen : (liveCells (presets[1]).grid).length = 3 := by
        rw [h]
        rfl
      revert hlen
      decide
    · have hlen : (liveCells (presets[1]).grid).length = 3 := by
        rw [h]
        rfl
      revert hlen
      decide
  · rintro ⟨h3, -⟩
    revert h3
    decide

/-- C7 (amended): the glider grid has exactly five live cells; two of them,
(1,2) and (2,3), lie on one diagonal (consecutive rows, consecutive columns),
and the other three are the row cells (3,1), (3,2), (3,3). -/
theorem glider_five_cells :
    ∃ p, get 1 = some p ∧ (liveCells p.grid).length = 5 ∧
      cell p.grid 1 2 = some 1 ∧ cell p.grid (1 + 1) (2 + 1) = some 1 ∧
      cell p.grid 3 1 = some 1 ∧ cell p.grid 3 2 = some 1 ∧
      cell p.grid 3 3 = some 1 :=
  ⟨_, get_one, rfl, rfl, rfl, rfl, rfl, rfl⟩

/-- C8: a record of the table whose seed is `S_RANDOM` is the record at index
2, and its grid is 5 rows of 7 zeros: all 35 cells are dead. -/
theorem random_seed_grid_all_dead (i : Int) (p : preset)
    (h : get i = some p) (hs : p.seed = SeedMode.S_RANDOM) :
    i = 2 ∧ p.grid = List.replicate 5 (List.replicate 7 0) ∧
      liveCells p.grid = [] := by
  obtain ⟨h0, h1⟩ := get_some_range i p h
  rcases range_cases i h0 h1 with rfl | rfl | rfl
  · rw [get_zero] at h
    cases h
    cases hs
  · rw [get_one] at h
    cases h
    cases hs
  · rw [get_two] at h
    cases h
    exact ⟨rfl, rfl, rfl⟩

theorem random_seed_grid_all_dead_witness :
    ∃ p, get 2 = some p ∧ p.seed = SeedMode.S_RANDOM ∧
      p.grid = List.replicate 5 (List.replicate 7 0) ∧ liveCells p.grid = [] :=
  ⟨_, get_two, rfl, (random_seed_grid_all_dead 2 _ get_two rfl).2⟩

/-- C9: `get index` is a record exactly when `0 ≤ index < N_PRESETS`; for
every other index, the negative ones included, it is `none`: an index out of
range is answered by no record, it is neither clamped nor wrapped. -/
theorem get_some_iff_in_range (index : Int) :
    ((∃ p, get index = some p) ↔ (0 ≤ index ∧ index < (N_PRESETS : Int))) ∧
      (get index = none ↔ (index < 0 ∨ (N_PRESETS : Int) ≤ index)) := by
  constructor
  · constructor
    · rintro ⟨p, hp⟩
      exact get_some_range index p hp
    · rintro ⟨h0, h1⟩
      rcases range_cases index h0 h1 with rfl | rfl | rfl
      · exact ⟨_, get_zero⟩
      · exact ⟨_, get_one⟩
      · exact ⟨_, get_two⟩
  · constructor
    · intro hnone
      by_contra hc
      have h0 : 0 ≤ index := by omega
      have h1 : index < (N_PRESETS : Int) := by omega
      rcases range_cases index h0 h1 with rfl | rfl | rfl
      · rw [get_zero] at hnone
        cases hnone
      · rw [get_one] at hnone
        cases hnone
      · rw [get_two] at hnone
        cases hnone
    · rintro (hneg | hge)
      · exact get_neg index hneg
      · exact get_ge index hge

/-- C10: `0 ≤ active_preset < N_PRESETS` holds in the initial state, holds
after every `setActive` with a valid index from a state where it holds, and so
holds in every state reached through valid selections, where `active` is a
record of the table. -/
theorem active_preset_in_range (s : State) (h : Reachable s) :
    inRange initState ∧
      (∀ t i, inRange t → 0 ≤ i → i < (N_PRESETS : Int) → inRange (setActive t i)) ∧
      inRange s ∧ ∃ p, active s = some p ∧ p ∈ presets := by
  have hinit : inRange initState := by
    constructor <;> decide
  have hstep : ∀ t i, inRange t → 0 ≤ i → i < (N_PRESETS : Int) →
      inRange (setActive t i) := by
    intro t i _ h0 h1
    exact ⟨h0, h1⟩
  have hs : inRange s := by
    induction h with
    | start => exact hinit
    | select t i _ h0 h1 ih => exact hstep t i ih h0 h1
  refine ⟨hinit, hstep, hs, ?_⟩
  obtain ⟨p, hp⟩ := (get_in_range_mem s.active_preset hs.1 hs.2)
  exact ⟨p, hp.1, hp.2⟩

theorem active_preset_in_range_witness :
    inRange (setActive (setActive initState 2) 1) ∧
      ∃ p, active (setActive (setActive initState 2) 1) = some p ∧ p ∈ presets :=
  (active_preset_in_range (setActive (setActive initState 2) 1)
    (Reachable.select _ 1
      (Reachable.select _ 2 Reachable.start (by decide) (by decide))
      (by decide) (by decide))).2.2

/-- C11: `get`, `active` and `count` leave the whole memory as it was;
`setActive` writes `active_preset` and nothing else; so after any sequence of
operations the table is the one before it, and from program start `get i`
reads the same record as before, for every `i`. -/
theorem only_setActive_changes_state (m : Memory) (ops : List Op) :
    (∀ i, step m (Op.get i) = m) ∧ step m Op.active = m ∧ step m Op.count = m ∧
      (∀ i, (step m (Op.setActive i)).table = m.table ∧
        (step m (Op.setActive i)).sel.active_preset = i) ∧
      (run m ops).table = m.table ∧
      (∀ i, readAt (run m ops) i = readAt m i) ∧
      (∀ i, readAt (run initMemory ops) i = get i) := by
  have htable : ∀ (l : List Op) (n : Memory), (run n l).table = n.table := by
    intro l
    induction l with
    | nil => intro n; rfl
    | cons op rest ih =>
      intro n
      have hstep : (step n op).table = n.table := by
        cases op <;> rfl
      show (run (step n op) rest).table = n.table
      rw [ih (step n op), hstep]
  refine ⟨fun _ => rfl, rfl, rfl, fun _ => ⟨rfl, rfl⟩, htable ops m, ?_, ?_⟩
  · intro i
    unfold readAt
    rw [htable ops m]
  · intro i
    unfold readAt get
    rw [htable ops initMemory]
    rfl

theorem only_setActive_changes_state_witness :
    (run initMemory [Op.setActive 2, Op.get 1, Op.count, Op.active]).table = presets ∧
      (run initMemory [Op.setActive 2, Op.get 1, Op.count, Op.active]).sel.active_preset = 2 ∧
      readAt (run initMemory [Op.setActive 2, Op.get 1, Op.count, Op.active]) 1 = get 1 :=
  ⟨(only_setActive_changes_state initMemory
      [Op.setActive 2, Op.get 1, Op.count, Op.active]).2.2.2.2.1,
    rfl,
    (only_setActive_changes_state initMemory
      [Op.setActive 2, Op.get 1, Op.count, Op.active]).2.2.2.2.2.2 1⟩

theorem cRem_nonneg_range (index : Int) (h : 0 ≤ index) :
    0 ≤ cRem index (N_PRESETS : Int) ∧ cRem index (N_PRESETS : Int) < (N_PRESETS : Int) := by
  unfold cRem
  exact ⟨Int.tmod_nonneg _ h, Int.tmod_lt_of_pos _ (by decide)⟩

theorem cRem_neg_range (index : Int) (h : index < 0) :
    -(N_PRESETS : Int) < cRem index (N_PRESETS : Int) ∧ cRem index (N_PRESETS : Int) ≤ 0 := by
  match index, h with
  | Int.negSucc n, _ =>
    have hval : cRem (Int.negSucc n) (N_PRESETS : Int) = -(((n + 1) % 3 : Nat) : Int) := rfl
    have hlt : (n + 1) % 3 < 3 := Nat.mod_lt _ (by decide)
    have h3 : ((N_PRESETS : Nat) : Int) = 3 := rfl
    rw [hval, h3]
    omega
  | Int.ofNat n, hn =>
    exact absurd hn (by simp)

/-- C12 (counterexample): "previous preset" from index 0 passes `-1`, and the C
remainder `-1 % N_PRESETS` is `-1`: the wrapped selection leaves
`active_preset` at `-1`, out of range, where `active` reads no record. -/
theorem wrapSelect_minus_one_out_of_range :
    (wrapSelect initState (0 - 1)).active_preset = -1 ∧
      ¬ inRange (wrapSelect initState (0 - 1)) ∧
      active (wrapSelect initState (0 - 1)) = none := by
  refine ⟨by decide, ?_, by decide⟩
  intro h
  have h0 : (0 : Int) ≤ (wrapSelect initState (0 - 1)).active_preset := h.1
  revert h0
  decide

/-- C12 (amended): for every index that is not negative, the selection
`active_preset = index % N_PRESETS` yields `0 ≤ active_preset < N_PRESETS` and
`active` is a record of the table; for a negative index the C remainder lies
in `-(N_PRESETS - 1) .. 0`, and no in-range result is promised. -/
theorem wrapSelect_in_range (s : State) (index : Int) :
    (0 ≤ index → inRange (wrapSelect s index) ∧
        ∃ p, active (wrapSelect s index) = some p ∧ p ∈ presets) ∧
      (index < 0 → -(N_PRESETS : Int) < (wrapSelect s index).active_preset ∧
        (wrapSelect s index).active_preset ≤ 0) := by
  constructor
  · intro h
    have hr := cRem_nonneg_range index h
    exact ⟨hr, get_in_range_mem _ hr.1 hr.2⟩
  · intro h
    exact cRem_neg_range index h

theorem wrapSelect_in_range_witness :
    (inRange (wrapSelect initState 32767) ∧
        ∃ p, active (wrapSelect initState 32767) = some p ∧ p ∈ presets) ∧
      (-(N_PRESETS : Int) < (wrapSelect initState (-32768)).active_preset ∧
        (wrapSelect initState (-32768)).active_preset ≤ 0) :=
  ⟨(wrapSelect_in_range initState 32767).1 (by decide),
    (wrapSelect_in_range initState (-32768)).2 (by decide)⟩

/-- C13: the glider grid is the standard five-cell glider: with rows 0..4 and
columns 0..6 the cells (1,2), (2,3), (3,1), (3,2), (3,3) hold 1, every other
cell holds 0, and in row-major order the live cells are exactly those five. -/
theorem glider_exact_cells (r c : Nat) (hr : r < 5) (hc : c < 7) :
    ∃ p, get 1 = some p ∧
      liveCells p.grid = [(1, 2), (2, 3), (3, 1), (3, 2), (3, 3)] ∧
      cell p.grid r c =
        some (if (r, c) ∈ [(1, 2), (2, 3), (3, 1), (3, 2), (3, 3)] then 1 else 0) := by
  refine ⟨_, get_one, rfl, ?_⟩
  interval_cases r <;> interval_cases c <;> rfl

theorem glider_exact_cells_witness :
    ∃ p, get 1 = some p ∧
      liveCells p.grid = [(1, 2), (2, 3), (3, 1), (3, 2), (3, 3)] ∧
      cell p.grid 3 4 =
        some (if (3, 4) ∈ [(1, 2), (2, 3), (3, 1), (3, 2), (3, 3)] then 1 else 0) :=
  glider_exact_cells 3 4 (by decide) (by decide)

/-- C14: a record of the table whose seed is `S_PRESET` is the record at index
0 or at index 1, and its grid has exactly 5 live cells, so at least one. -/
theorem preset_seed_grid_nonempty (i : Int) (p : preset)
    (h : get i = some p) (hs : p.seed = SeedMode.S_PRESET) :
    (i = 0 ∨ i = 1) ∧ (liveCells p.grid).length = 5 ∧
      ∃ r c, (r, c) ∈ liveCells p.grid ∧ cell p.grid r c = some 1 := by
  obtain ⟨h0, h1⟩ := get_some_range i p h
  rcases range_cases i h0 h1 with rfl | rfl | rfl
  · rw [get_zero] at h
    cases h
    exact ⟨Or.inl rfl, rfl, 1, 3, by decide, rfl⟩
  · rw [get_one] at h
    cases h
    exact ⟨Or.inr rfl, rfl, 1, 2, by decide, rfl⟩
  · rw [get_two] at h
    cases h
    cases hs

theorem preset_seed_grid_nonempty_witness :
    ∃ p, get 0 = some p ∧ p.seed = SeedMode.S_PRESET ∧
      (liveCells p.grid).length = 5 ∧
      ∃ r c, (r, c) ∈ liveCells p.grid ∧ cell p.grid r c = some 1 :=
  ⟨_, get_zero, rfl, (preset_seed_grid_nonempty 0 _ get_zero rfl).2⟩

/-- C15: in every record of the table every border cell is dead: each cell of
row 0, of row 4, of column 0 and of column 6 holds 0. -/
theorem border_cells_dead (i : Int) (p : preset) (r c : Nat)
    (h : get i = some p) (hr : r < 5) (hc : c < 7)
    (hb : r = 0 ∨ r = 4 ∨ c = 0 ∨ c = 6) :
    cell p.grid r c = some 0 := by
  obtain ⟨h0, h1⟩ := get_some_range i p h
  rcases range_cases i h0 h1 with rfl | rfl | rfl
  · rw [get_zero] at h
    cases h
    interval_cases r <;> interval_cases c <;> first | rfl | (exfalso; revert hb; decide)
  · rw [get_one] at h
    cases h
    interval_cases r <;> interval_cases c <;> first | rfl | (exfalso; revert hb; decide)
  · rw [get_two] at h
    cases h
    interval_cases r <;> interval_cases c <;> rfl

theorem border_cells_dead_witness :
    ∃ p, get 1 = some p ∧ cell p.grid 3 6 = some 0 :=
  ⟨_, get_one, border_cells_dead 1 _ 3 6 get_one (by decide) (by decide) (by decide)⟩

end ArduinoLife
